import Mathlib

/-!
Shallow embedding of `src/usb/src/Riscv.rs` (kevans91/wishbone-utils):
the RISC-V register-catalog and GDB target-description subsystem.

Rust `String`s are modelled as Lean `String`s; `Vec<u8>` results of
`String::into_bytes` are modelled by `into_bytes`, an explicit UTF-8
encoder into `List Nat` (every string produced by this code is ASCII).
`Result<T, RiscvCpuError>` is modelled as `Except RiscvCpuError T`.
-/

set_option maxRecDepth 100000

/-- The error enum `RiscvCpuError` of the source: its single variant
`UnrecognizedFile(String)` carries the requested filename. -/
inductive RiscvCpuError where
  | UnrecognizedFile (requested : String)
deriving DecidableEq

/-- The constant `THREADS_XML` of the source, a Rust raw string literal. -/
def THREADS_XML : String :=
  "<?xml version=\"1.0\"?>\n<threads>\n</threads>"

/-- The enum `RiscvRegisterType`: General registers vs. CSRs. -/
inductive RiscvRegisterType where
  | General
  | CSR
deriving DecidableEq

/-- `RiscvRegisterType::feature_name`. -/
def RiscvRegisterType.feature_name : RiscvRegisterType → String
  | .General => "org.gnu.gdb.riscv.cpu"
  | .CSR => "org.gnu.gdb.riscv.csr"

/-- `RiscvRegisterType::group`. -/
def RiscvRegisterType.group : RiscvRegisterType → String
  | .General => "general"
  | .CSR => "csr"

/-- The struct `RiscvRegister`: group tag, namespace index (`u32`, always
small here so modelled as `Nat`), architectural name, presence flag. -/
structure RiscvRegister where
  register_type : RiscvRegisterType
  index : Nat
  name : String
  present : Bool
deriving DecidableEq

/-- `RiscvRegister::general(index, name)`: a General register, present. -/
def RiscvRegister.general (index : Nat) (name : String) : RiscvRegister :=
  { register_type := .General, index := index, name := name, present := true }

/-- `RiscvRegister::csr(index, name, present)`. -/
def RiscvRegister.csr (index : Nat) (name : String) (present : Bool) : RiscvRegister :=
  { register_type := .CSR, index := index, name := name, present := present }

/-- `RiscvCpu::make_registers`: the full ordered register catalog, written
as the concatenation of the source's `registers.push(...)` sequence.
Rust `for n in a..b` loops become `List.range'` maps. -/
def RiscvCpu.make_registers : List RiscvRegister :=
  -- general purpose registers x0 to x31
  ((List.range 32).map (fun reg_num =>
      RiscvRegister.general reg_num ("x" ++ toString reg_num)))
  -- the program counter
  ++ [RiscvRegister.general 32 "pc"]
  -- User trap setup
  ++ [RiscvRegister.csr 0x000 "ustatus" false,
      RiscvRegister.csr 0x004 "uie" false,
      RiscvRegister.csr 0x005 "utvec" false]
  -- User trap handling
  ++ [RiscvRegister.csr 0x040 "uscratch" false,
      RiscvRegister.csr 0x041 "uepc" false,
      RiscvRegister.csr 0x042 "ucause" false,
      RiscvRegister.csr 0x043 "utval" false,
      RiscvRegister.csr 0x044 "uip" false]
  -- User counter/timers
  ++ [RiscvRegister.csr 0xc00 "cycle" false,
      RiscvRegister.csr 0xc01 "time" false,
      RiscvRegister.csr 0xc02 "instret" false]
  ++ ((List.range' 3 29).map (fun n =>
      RiscvRegister.csr (0xc00 + n) ("hpmcounter" ++ toString n) false))
  ++ [RiscvRegister.csr 0xc80 "cycleh" false,
      RiscvRegister.csr 0xc81 "timeh" false,
      RiscvRegister.csr 0xc82 "instreth" false]
  ++ ((List.range' 3 29).map (fun n =>
      RiscvRegister.csr (0xc80 + n) ("hpmcounter" ++ toString n ++ "h") false))
  -- Supervisor Trap Setup
  ++ [RiscvRegister.csr 0x100 "sstatus" false,
      RiscvRegister.csr 0x102 "sedeleg" false,
      RiscvRegister.csr 0x103 "sideleg" false,
      RiscvRegister.csr 0x104 "sie" false,
      RiscvRegister.csr 0x105 "stvec" false,
      RiscvRegister.csr 0x106 "scounteren" false]
  -- Supervisor Trap Handling
  ++ [RiscvRegister.csr 0x140 "sscratch" false,
      RiscvRegister.csr 0x141 "sepc" false,
      RiscvRegister.csr 0x142 "scause" false,
      RiscvRegister.csr 0x143 "stval" false,
      RiscvRegister.csr 0x144 "sip" false]
  -- Supervisor protection and translation
  ++ [RiscvRegister.csr 0x180 "satp" false]
  -- Machine information registers
  ++ [RiscvRegister.csr 0xf11 "mvendorid" false,
      RiscvRegister.csr 0xf12 "marchid" false,
      RiscvRegister.csr 0xf13 "mimpid" false,
      RiscvRegister.csr 0xf14 "mhartid" false]
  -- Machine trap setup
  ++ [RiscvRegister.csr 0x300 "mstatus" false,
      RiscvRegister.csr 0x301 "misa" false,
      RiscvRegister.csr 0x302 "medeleg" false,
      RiscvRegister.csr 0x303 "mideleg" false,
      RiscvRegister.csr 0x304 "mie" false,
      RiscvRegister.csr 0x305 "mtvec" false,
      RiscvRegister.csr 0x306 "mcounteren" false]
  -- Machine trap handling
  ++ [RiscvRegister.csr 0x340 "mscratch" false,
      RiscvRegister.csr 0x341 "mepc" false,
      RiscvRegister.csr 0x342 "mcause" false,
      RiscvRegister.csr 0x343 "mtval" false,
      RiscvRegister.csr 0x344 "mip" false]
  -- Machine protection and translation (note the source writes "mpmcfg")
  ++ [RiscvRegister.csr 0x3a0 "mpmcfg0" false,
      RiscvRegister.csr 0x3a1 "mpmcfg1" false,
      RiscvRegister.csr 0x3a2 "mpmcfg2" false,
      RiscvRegister.csr 0x3a3 "mpmcfg3" false]
  ++ ((List.range 16).map (fun n =>
      RiscvRegister.csr (0x3b0 + n) ("pmpaddr" ++ toString n) false))
  -- Machine counter/timers
  ++ [RiscvRegister.csr 0xb00 "mcycle" false,
      RiscvRegister.csr 0xb02 "minstret" false]
  ++ ((List.range' 3 29).map (fun n =>
      RiscvRegister.csr (0xb00 + n) ("mhpmcounter" ++ toString n) false))
  ++ [RiscvRegister.csr 0xb80 "mcycleh" false,
      RiscvRegister.csr 0xb82 "minstreth" false]
  ++ ((List.range' 3 29).map (fun n =>
      RiscvRegister.csr (0xb80 + n) ("mhpmcounter" ++ toString n ++ "h") false))
  -- Machine counter setup
  ++ ((List.range' 3 29).map (fun n =>
      RiscvRegister.csr (0x320 + n) ("mhpmevent" ++ toString n) false))
  -- Debug/trace registers
  ++ [RiscvRegister.csr 0x7a0 "tselect" false,
      RiscvRegister.csr 0x7a1 "tdata1" false,
      RiscvRegister.csr 0x7a2 "tdata2" false,
      RiscvRegister.csr 0x7a3 "tdata3" false]
  -- Debug mode registers
  ++ [RiscvRegister.csr 0x7b0 "dcsr" false,
      RiscvRegister.csr 0x7b1 "dpc" false,
      RiscvRegister.csr 0x7b2 "dscratch" false]

/-- The initial value of `target_xml` in `make_target_xml`: the Rust raw
string literal `r#"..."#` of lines 207-211.  Because it is a raw string,
the two `\"` sequences inside the XML declaration are LITERAL
backslash-quote pairs, and the literal begins with a newline followed by
indentation whitespace. -/
def TARGET_XML_HEADER : String :=
  "\n            <?xml version=\\\"1.0\\\"?>\n                <!DOCTYPE target SYSTEM \"gdb-target.dtd\">\n                <target version=\"1.0\">\n        "

/-- The `<reg .../>` line pushed for one register inside the inner loop of
`make_target_xml` (the `format!` at lines 221-222). -/
def reg_line (reg : RiscvRegister) : String :=
  "<reg name=\"" ++ reg.name ++ "\" bitsize=\"32\" regnum=\"" ++ toString reg.index
    ++ "\" save-restore=\"no\" type=\"int\" group=\"" ++ reg.register_type.group ++ "\"/>\n"

/-- The inner loop of `make_target_xml`: walk the catalog in order,
skipping registers that are absent or belong to another group, appending
one `reg_line` for each remaining register to the accumulated string. -/
def emit_regs (ft : RiscvRegisterType) : List RiscvRegister → String → String
  | [], acc => acc
  | reg :: rest, acc =>
      if !reg.present || reg.register_type != ft then
        emit_regs ft rest acc
      else
        emit_regs ft rest (acc ++ reg_line reg)

/-- The outer loop of `make_target_xml`: for each register type push the
`<feature name="...">` opening line, then run the inner loop. -/
def emit_features : List RiscvRegisterType → List RiscvRegister → String → String
  | [], _, acc => acc
  | ft :: fts, registers, acc =>
      emit_features fts registers
        (emit_regs ft registers (acc ++ "<feature name=\"" ++ ft.feature_name ++ "\">\n"))

/-- `RiscvCpu::make_target_xml`: header, the two feature loops over
`[General, CSR]`, then a single `</feature>` push and the `</target>`
push (exactly as the source: the closing tag is pushed once, after the
loop over both register types). -/
def RiscvCpu.make_target_xml (registers : List RiscvRegister) : String :=
  emit_features [RiscvRegisterType.General, RiscvRegisterType.CSR] registers TARGET_XML_HEADER
    ++ "</feature>\n" ++ "</target>\n"

/-- The struct `RiscvCpu`: the catalog plus the cached target XML. -/
structure RiscvCpu where
  registers : List RiscvRegister
  target_xml : String

/-- UTF-8 encoding of one character, as byte values. -/
def utf8_char_bytes (c : Char) : List Nat :=
  let n := c.toNat
  if n < 0x80 then [n]
  else if n < 0x800 then
    [0xc0 + (n / 0x40), 0x80 + n % 0x40]
  else if n < 0x10000 then
    [0xe0 + (n / 0x1000), 0x80 + (n / 0x40) % 0x40, 0x80 + n % 0x40]
  else
    [0xf0 + (n / 0x40000), 0x80 + (n / 0x1000) % 0x40, 0x80 + (n / 0x40) % 0x40, 0x80 + n % 0x40]

/-- Rust `String::into_bytes`: the UTF-8 byte sequence of a string
(modelled over `Nat` byte values). -/
def into_bytes (s : String) : List Nat :=
  List.flatten (s.data.map utf8_char_bytes)

/-- `RiscvCpu::new`: build the catalog, cache the rendered XML, return Ok. -/
def RiscvCpu.new : Except RiscvCpuError RiscvCpu :=
  let registers := RiscvCpu.make_registers
  let target_xml := RiscvCpu.make_target_xml registers
  Except.ok { registers := registers, target_xml := target_xml }

/-- `RiscvCpu::get_feature`: `"target.xml"` returns the cached document's
bytes; every other name is an `UnrecognizedFile` error carrying the name. -/
def RiscvCpu.get_feature (cpu : RiscvCpu) (name : String) :
    Except RiscvCpuError (List Nat) :=
  if name == "target.xml" then
    Except.ok (into_bytes cpu.target_xml)
  else
    Except.error (RiscvCpuError.UnrecognizedFile name)

/-- `RiscvCpu::get_threads`: always Ok with the bytes of `THREADS_XML`. -/
def RiscvCpu.get_threads (_cpu : RiscvCpu) : Except RiscvCpuError (List Nat) :=
  Except.ok (into_bytes THREADS_XML)

/-- The `RiscvCpu` value produced by `RiscvCpu.new` (used to state closed
facts about the constructed cpu). -/
def default_cpu : RiscvCpu :=
  { registers := RiscvCpu.make_registers
    target_xml := RiscvCpu.make_target_xml RiscvCpu.make_registers }

/-- Whether the character list `s` begins with the character list `p`. -/
def chars_start_with : List Char → List Char → Bool
  | [], _ => true
  | _ :: _, [] => false
  | p :: ps, c :: cs => p == c && chars_start_with ps cs

/-- Number of (possibly overlapping) occurrence positions of `pat` in `l`. -/
def count_occ_chars (pat : List Char) : List Char → Nat
  | [] => 0
  | c :: cs =>
      (if chars_start_with pat (c :: cs) then 1 else 0) + count_occ_chars pat cs

/-- Number of occurrence positions of the pattern string in `s`. -/
def countOccur (pat s : String) : Nat :=
  count_occ_chars pat.data s.data

/-- Concatenation of a list of strings, in order. -/
def concat_all : List String → String
  | [] => ""
  | s :: rest => s ++ concat_all rest

/-- The `<feature name="...">` opening line pushed by the outer loop of
`make_target_xml` for one register type. -/
def feature_open (ft : RiscvRegisterType) : String :=
  "<feature name=\"" ++ ft.feature_name ++ "\">\n"

/-- The text the inner loop of `make_target_xml` appends for one register
type: one `reg_line` per register of the catalog, in catalog order, that
is present and belongs to that type. -/
def feature_body (ft : RiscvRegisterType) (registers : List RiscvRegister) : String :=
  concat_all ((registers.filter
      (fun r => r.present && r.register_type == ft)).map reg_line)

/-- Characterization of the inner emission loop: it appends, to the
accumulator, exactly one `reg_line` per present register of the matching
type, in catalog order, and nothing else. -/
theorem emit_regs_eq (ft : RiscvRegisterType) (regs : List RiscvRegister) (acc : String) :
    emit_regs ft regs acc = acc ++ feature_body ft regs := by
  induction regs generalizing acc with
  | nil => simp [emit_regs, feature_body, concat_all]
  | cons r rest ih =>
      by_cases h : (r.present && (r.register_type == ft)) = true
      · have h1 : r.present = true := (Bool.and_eq_true _ _ |>.mp h).1
        have h2 : r.register_type = ft := by
          have hx := (Bool.and_eq_true _ _ |>.mp h).2
          simpa using hx
        subst h2
        simp [emit_regs, feature_body, concat_all, List.filter_cons, h1, ih,
          String.append_assoc]
      · have h1 : (!r.present || (r.register_type != ft)) = true := by
          rcases Bool.not_and _ _ ▸ congrArg (fun b => !b) (Bool.eq_false_iff.mpr h) with hx
          simpa [bne] using hx
        simp [emit_regs, feature_body, List.filter_cons, h, h1, ih]

/-- Characterization of the outer loop for the concrete type list
`[General, CSR]` the source iterates. -/
theorem emit_features_eq (registers : List RiscvRegister) (acc : String) :
    emit_features [RiscvRegisterType.General, RiscvRegisterType.CSR] registers acc
      = acc ++ (feature_open RiscvRegisterType.General
          ++ (feature_body RiscvRegisterType.General registers
          ++ (feature_open RiscvRegisterType.CSR
          ++ feature_body RiscvRegisterType.CSR registers))) := by
  simp [emit_features, emit_regs_eq, feature_open, String.append_assoc]

/-- Full structural characterization of `make_target_xml`: header, the
General feature opening and its reg lines, the CSR feature opening and
its reg lines, then the single `</feature>` and the `</target>`. -/
theorem make_target_xml_eq (registers : List RiscvRegister) :
    RiscvCpu.make_target_xml registers
      = TARGET_XML_HEADER ++ (feature_open RiscvRegisterType.General
          ++ (feature_body RiscvRegisterType.General registers
          ++ (feature_open RiscvRegisterType.CSR
          ++ (feature_body RiscvRegisterType.CSR registers
          ++ ("</feature>\n" ++ "</target>\n"))))) := by
  simp [RiscvCpu.make_target_xml, emit_features_eq, String.append_assoc]

/-- C3: `make_registers` yields exactly 33 General registers — `x0..x31`
with namespace indices 0..31 followed by `pc` with namespace index 32, in
that order — every one marked present; these are the first 33 entries of
the catalog, and they are ALL the General registers of the catalog. -/
theorem C3_general_registers :
    RiscvCpu.make_registers.take 33
        = ((List.range 32).map (fun i =>
            ({ register_type := RiscvRegisterType.General, index := i,
               name := "x" ++ toString i, present := true } : RiscvRegister)))
          ++ [{ register_type := RiscvRegisterType.General, index := 32,
                name := "pc", present := true }]
  ∧ RiscvCpu.make_registers.filter
        (fun r => r.register_type == RiscvRegisterType.General)
        = RiscvCpu.make_registers.take 33
  ∧ (RiscvCpu.make_registers.take 33).all (fun r => r.present) = true
  ∧ (RiscvCpu.make_registers.take 33).map (fun r => r.index) = List.range 33
  ∧ (RiscvCpu.make_registers.take 33).map (fun r => r.name)
        = ["x0", "x1", "x2", "x3", "x4", "x5", "x6", "x7", "x8", "x9",
           "x10", "x11", "x12", "x13", "x14", "x15", "x16", "x17", "x18", "x19",
           "x20", "x21", "x22", "x23", "x24", "x25", "x26", "x27", "x28", "x29",
           "x30", "x31", "pc"] := by
  exact ⟨by decide, by decide, by decide, by decide, by decide⟩

/-- C4: every CSR entry of the catalog has present = false, and the
catalog contains the CSR families the claim enumerates: trap setup, trap
handling, the hpmcounterN / hpmcounterNh and mhpmcounterN / mhpmcounterNh
families for N in 3..31, satp, pmpaddrN for N in 0..15, machine
information registers, and the debug/trace registers. -/
theorem C4_csr_defaults_and_families :
    RiscvCpu.make_registers.all
        (fun r => r.register_type == RiscvRegisterType.General || r.present == false) = true
  ∧ ([(0x000, "ustatus"), (0x004, "uie"), (0x005, "utvec"),
      (0x100, "sstatus"), (0x102, "sedeleg"), (0x103, "sideleg"),
      (0x104, "sie"), (0x105, "stvec"), (0x106, "scounteren"),
      (0x300, "mstatus"), (0x301, "misa"), (0x302, "medeleg"),
      (0x303, "mideleg"), (0x304, "mie"), (0x305, "mtvec"),
      (0x306, "mcounteren")] : List (Nat × String)).all
        (fun p => RiscvCpu.make_registers.contains (RiscvRegister.csr p.1 p.2 false)) = true
  ∧ ([(0x040, "uscratch"), (0x041, "uepc"), (0x042, "ucause"),
      (0x043, "utval"), (0x044, "uip"),
      (0x140, "sscratch"), (0x141, "sepc"), (0x142, "scause"),
      (0x143, "stval"), (0x144, "sip"),
      (0x340, "mscratch"), (0x341, "mepc"), (0x342, "mcause"),
      (0x343, "mtval"), (0x344, "mip")] : List (Nat × String)).all
        (fun p => RiscvCpu.make_registers.contains (RiscvRegister.csr p.1 p.2 false)) = true
  ∧ (List.range' 3 29).all (fun n =>
        RiscvCpu.make_registers.contains
            (RiscvRegister.csr (0xc00 + n) ("hpmcounter" ++ toString n) false)
        && RiscvCpu.make_registers.contains
            (RiscvRegister.csr (0xc80 + n) ("hpmcounter" ++ toString n ++ "h") false)
        && RiscvCpu.make_registers.contains
            (RiscvRegister.csr (0xb00 + n) ("mhpmcounter" ++ toString n) false)
        && RiscvCpu.make_registers.contains
            (RiscvRegister.csr (0xb80 + n) ("mhpmcounter" ++ toString n ++ "h") false)) = true
  ∧ RiscvCpu.make_registers.contains (RiscvRegister.csr 0x180 "satp" false) = true
  ∧ (List.range 16).all (fun n =>
        RiscvCpu.make_registers.contains
            (RiscvRegister.csr (0x3b0 + n) ("pmpaddr" ++ toString n) false)) = true
  ∧ ([(0xf11, "mvendorid"), (0xf12, "marchid"), (0xf13, "mimpid"),
      (0xf14, "mhartid")] : List (Nat × String)).all
        (fun p => RiscvCpu.make_registers.contains (RiscvRegister.csr p.1 p.2 false)) = true
  ∧ ([(0x7a0, "tselect"), (0x7a1, "tdata1"), (0x7a2, "tdata2"),
      (0x7a3, "tdata3"), (0x7b0, "dcsr"), (0x7b1, "dpc"),
      (0x7b2, "dscratch")] : List (Nat × String)).all
        (fun p => RiscvCpu.make_registers.contains (RiscvRegister.csr p.1 p.2 false)) = true := by
  exact ⟨by decide, by decide, by decide, by decide, by decide, by decide, by decide, by decide⟩

/-- C9: the machine protection CSR entries at addresses 0x3a0..0x3a3 are
named `mpmcfg0..mpmcfg3` by the source — the catalog contains NO register
named `pmpcfg0..pmpcfg3` as the RISC-V privileged spec requires — while
`pmpaddrN` for N in 0..15 at 0x3b0..0x3bf are named as specified. -/
theorem C9_mpmcfg_misnamed :
    RiscvCpu.make_registers.contains (RiscvRegister.csr 0x3a0 "mpmcfg0" false) = true
  ∧ RiscvCpu.make_registers.contains (RiscvRegister.csr 0x3a1 "mpmcfg1" false) = true
  ∧ RiscvCpu.make_registers.contains (RiscvRegister.csr 0x3a2 "mpmcfg2" false) = true
  ∧ RiscvCpu.make_registers.contains (RiscvRegister.csr 0x3a3 "mpmcfg3" false) = true
  ∧ RiscvCpu.make_registers.all
        (fun r => r.name != "pmpcfg0" && r.name != "pmpcfg1"
          && r.name != "pmpcfg2" && r.name != "pmpcfg3") = true
  ∧ (List.range 16).all (fun n =>
        RiscvCpu.make_registers.contains
            (RiscvRegister.csr (0x3b0 + n) ("pmpaddr" ++ toString n) false)) = true := by
  exact ⟨by decide, by decide, by decide, by decide, by decide, by decide⟩

/-- C5: `get_feature` fails with `UnrecognizedFile` carrying exactly the
requested name for every filename other than `"target.xml"`, and this is
the only failure in the core: `new` and `get_threads` always return Ok. -/
theorem C5_unrecognized_file (cpu : RiscvCpu) (name : String)
    (h : ¬(name = "target.xml")) :
    cpu.get_feature name = Except.error (RiscvCpuError.UnrecognizedFile name)
  ∧ (∃ c : RiscvCpu, RiscvCpu.new = Except.ok c)
  ∧ (∃ bs : List Nat, cpu.get_threads = Except.ok bs) := by
  refine ⟨?_, ⟨default_cpu, rfl⟩, ⟨into_bytes THREADS_XML, rfl⟩⟩
  simp [RiscvCpu.get_feature, h]

/-- C5 witness: `get_feature "bogus.xml"` on the cpu built by `new` fails
with `UnrecognizedFile "bogus.xml"`. -/
theorem C5_unrecognized_file_witness :
    default_cpu.get_feature "bogus.xml"
        = Except.error (RiscvCpuError.UnrecognizedFile "bogus.xml")
  ∧ (∃ c : RiscvCpu, RiscvCpu.new = Except.ok c)
  ∧ (∃ bs : List Nat, default_cpu.get_threads = Except.ok bs) :=
  C5_unrecognized_file default_cpu "bogus.xml" (by decide)

/-- C6 as stated is false: `get_feature "threads"` does NOT return the
threads document — the only recognized filename is `"target.xml"`, so it
fails with `UnrecognizedFile "threads"` on the cpu built by `new`. -/
theorem C6_get_feature_threads_fails :
    default_cpu.get_feature "threads"
        = Except.error (RiscvCpuError.UnrecognizedFile "threads")
  ∧ RiscvCpu.new = Except.ok default_cpu := by
  exact ⟨rfl, rfl⟩

/-- C6 amended: the thread-transfer path is the separate method
`get_threads`, which returns Ok with the literal bytes of the fixed
`THREADS_XML` document — an XML declaration followed by an empty
`<threads>` element (opening and closing tags on separate lines). -/
theorem C6_get_threads_literal :
    default_cpu.get_threads = Except.ok (into_bytes THREADS_XML)
  ∧ THREADS_XML = "<?xml version=\"1.0\"?>\n<threads>\n</threads>"
  ∧ countOccur "<threads>" THREADS_XML = 1
  ∧ countOccur "</threads>" THREADS_XML = 1 := by
  exact ⟨rfl, rfl, by decide, by decide⟩

/-- C7: target-description rendering is deterministic — equal catalogs
render to identical documents — and `get_feature "target.xml"` on the
cpu built by `new` returns exactly the bytes of `make_target_xml`
applied to that cpu's register catalog. -/
theorem C7_deterministic_cached (c1 c2 : List RiscvRegister) (cpu : RiscvCpu)
    (hcat : c1 = c2) (hnew : RiscvCpu.new = Except.ok cpu) :
    RiscvCpu.make_target_xml c1 = RiscvCpu.make_target_xml c2
  ∧ cpu.get_feature "target.xml"
      = Except.ok (into_bytes (RiscvCpu.make_target_xml cpu.registers)) := by
  subst hcat
  have hx : (Except.ok default_cpu : Except RiscvCpuError RiscvCpu) = Except.ok cpu := hnew
  have hcpu : default_cpu = cpu := Except.ok.inj hx
  subst hcpu
  exact ⟨rfl, rfl⟩

/-- C7 witness: instantiated at the catalog of `make_registers` and the
cpu that `new` builds. -/
theorem C7_deterministic_cached_witness :
    RiscvCpu.make_target_xml RiscvCpu.make_registers
        = RiscvCpu.make_target_xml RiscvCpu.make_registers
  ∧ default_cpu.get_feature "target.xml"
      = Except.ok (into_bytes (RiscvCpu.make_target_xml default_cpu.registers)) :=
  C7_deterministic_cached RiscvCpu.make_registers RiscvCpu.make_registers default_cpu rfl rfl

/-- C2: for every catalog, the document consists of the header, then for
each group (General first, then CSR) the feature opening followed by
exactly one reg line per register of the catalog that is present and of
that group, in catalog order (absent registers contribute nothing); no
register satisfies both groups' emission conditions; and each reg line
carries name, bitsize="32", regnum, save-restore="no", type="int" and
the group display name "general" or "csr". -/
theorem C2_reg_emission (registers : List RiscvRegister) :
    RiscvCpu.make_target_xml registers
      = TARGET_XML_HEADER ++ (feature_open RiscvRegisterType.General
          ++ (concat_all ((registers.filter (fun r =>
                r.present && r.register_type == RiscvRegisterType.General)).map reg_line)
          ++ (feature_open RiscvRegisterType.CSR
          ++ (concat_all ((registers.filter (fun r =>
                r.present && r.register_type == RiscvRegisterType.CSR)).map reg_line)
          ++ ("</feature>\n" ++ "</target>\n")))))
  ∧ (∀ reg : RiscvRegister, reg.register_type = RiscvRegisterType.General →
        reg_line reg = "<reg name=\"" ++ reg.name ++ "\" bitsize=\"32\" regnum=\""
          ++ toString reg.index
          ++ "\" save-restore=\"no\" type=\"int\" group=\"" ++ "general" ++ "\"/>\n")
  ∧ (∀ reg : RiscvRegister, reg.register_type = RiscvRegisterType.CSR →
        reg_line reg = "<reg name=\"" ++ reg.name ++ "\" bitsize=\"32\" regnum=\""
          ++ toString reg.index
          ++ "\" save-restore=\"no\" type=\"int\" group=\"" ++ "csr" ++ "\"/>\n")
  ∧ (∀ reg : RiscvRegister,
        ¬((reg.present && reg.register_type == RiscvRegisterType.General) = true
          ∧ (reg.present && reg.register_type == RiscvRegisterType.CSR) = true)) := by
  refine ⟨make_target_xml_eq registers, ?_, ?_, ?_⟩
  · intro reg h
    simp [reg_line, h, RiscvRegisterType.group]
  · intro reg h
    simp [reg_line, h, RiscvRegisterType.group]
  · intro reg ⟨hg, hc⟩
    have h1 : reg.register_type = RiscvRegisterType.General := by
      have := (Bool.and_eq_true _ _ |>.mp hg).2
      simpa using this
    have h2 : reg.register_type = RiscvRegisterType.CSR := by
      have := (Bool.and_eq_true _ _ |>.mp hc).2
      simpa using this
    rw [h1] at h2
    exact RiscvRegisterType.noConfusion h2

/-- C2 witness: the characterization applied to a concrete one-register
catalog, plus a concrete reg line with its attributes. -/
theorem C2_reg_emission_witness :
    RiscvCpu.make_target_xml [RiscvRegister.general 0 "x0"]
      = TARGET_XML_HEADER ++ (feature_open RiscvRegisterType.General
          ++ (concat_all (([RiscvRegister.general 0 "x0"].filter (fun r =>
                r.present && r.register_type == RiscvRegisterType.General)).map reg_line)
          ++ (feature_open RiscvRegisterType.CSR
          ++ (concat_all (([RiscvRegister.general 0 "x0"].filter (fun r =>
                r.present && r.register_type == RiscvRegisterType.CSR)).map reg_line)
          ++ ("</feature>\n" ++ "</target>\n")))))
  ∧ reg_line (RiscvRegister.general 0 "x0")
      = "<reg name=\"" ++ "x0" ++ "\" bitsize=\"32\" regnum=\"" ++ toString 0
          ++ "\" save-restore=\"no\" type=\"int\" group=\"" ++ "general" ++ "\"/>\n" :=
  ⟨(C2_reg_emission [RiscvRegister.general 0 "x0"]).1,
   (C2_reg_emission [RiscvRegister.general 0 "x0"]).2.1 (RiscvRegister.general 0 "x0") rfl⟩

/-- C8: every reg line renders regnum as the register's raw namespace
index, and the concrete one-register catalog holding a present CSR at
address 0x300 is rendered with regnum="768" — the raw CSR address — not
regnum="0", its ordinal position in the present-filtered emission order. -/
theorem C8_regnum_raw_index :
    (∀ reg : RiscvRegister,
        reg_line reg = "<reg name=\"" ++ reg.name ++ "\" bitsize=\"32\" regnum=\""
          ++ toString reg.index
          ++ "\" save-restore=\"no\" type=\"int\" group=\"" ++ reg.register_type.group ++ "\"/>\n")
  ∧ RiscvCpu.make_target_xml [RiscvRegister.csr 0x300 "mstatus" true]
      = TARGET_XML_HEADER ++ (feature_open RiscvRegisterType.General
          ++ (feature_open RiscvRegisterType.CSR
          ++ (reg_line (RiscvRegister.csr 0x300 "mstatus" true)
          ++ ("</feature>\n" ++ "</target>\n"))))
  ∧ countOccur "regnum=\"768\"" (reg_line (RiscvRegister.csr 0x300 "mstatus" true)) = 1
  ∧ countOccur "regnum=\"0\"" (reg_line (RiscvRegister.csr 0x300 "mstatus" true)) = 0 := by
  refine ⟨fun reg => rfl, ?_, by decide, by decide⟩
  have h := make_target_xml_eq [RiscvRegister.csr 0x300 "mstatus" true]
  simpa [feature_body, concat_all, List.filter, String.append_assoc] using h

/-- C1: the claim is false of the code — the produced document is NOT
well-formed XML. The document decomposes as header, General feature
opening, the General reg lines, CSR feature opening, CSR reg lines
(none), then ONE `</feature>` and `</target>`: two feature elements are
opened but only one is closed; moreover the document begins with a
newline and indentation, not the XML declaration, and the declaration
text contains two literal backslashes (from `\"` inside a Rust raw
string). The counting conjuncts verify that the opening pieces contain
exactly the stated number of `<feature name` / `</feature>` fragments,
so the whole document opens 2 features and closes 1. -/
theorem C1_target_xml_malformed :
    RiscvCpu.make_target_xml RiscvCpu.make_registers
      = TARGET_XML_HEADER ++ (feature_open RiscvRegisterType.General
          ++ (feature_body RiscvRegisterType.General RiscvCpu.make_registers
          ++ (feature_open RiscvRegisterType.CSR
          ++ (feature_body RiscvRegisterType.CSR RiscvCpu.make_registers
          ++ ("</feature>\n" ++ "</target>\n")))))
  ∧ TARGET_XML_HEADER.data.head? = some '\n'
  ∧ chars_start_with "<?xml".data TARGET_XML_HEADER.data = false
  ∧ countOccur "\\" TARGET_XML_HEADER = 2
  ∧ countOccur "<feature name" TARGET_XML_HEADER = 0
  ∧ countOccur "</feature>" TARGET_XML_HEADER = 0
  ∧ countOccur "<feature name" (feature_open RiscvRegisterType.General) = 1
  ∧ countOccur "<feature name" (feature_open RiscvRegisterType.CSR) = 1
  ∧ countOccur "</feature>" (feature_open RiscvRegisterType.General) = 0
  ∧ countOccur "</feature>" (feature_open RiscvRegisterType.CSR) = 0
  ∧ ((RiscvCpu.make_registers.filter (fun r =>
        r.present && r.register_type == RiscvRegisterType.General)).map reg_line).all
        (fun l => countOccur "<feature name" l == 0 && countOccur "</feature>" l == 0) = true
  ∧ feature_body RiscvRegisterType.CSR RiscvCpu.make_registers = ""
  ∧ countOccur "</feature>" "</feature>\n" = 1
  ∧ countOccur "<feature name" "</feature>\n" = 0
  ∧ countOccur "<feature name" "</target>\n" = 0
  ∧ countOccur "</feature>" "</target>\n" = 0 := by
  refine ⟨make_target_xml_eq _, by decide, by decide, by decide, by decide, by decide,
    by decide, by decide, by decide, by decide, by decide, by decide, by decide,
    by decide, by decide, by decide⟩

/-- C10: on the cpu built by `new` (whose construction fixes the catalog
and the cached document once and for all; every operation of the
embedding is a pure function of the cpu value), `get_feature
"target.xml"` returns the bytes of the rendered document, which contains
exactly 33 reg lines — one per present register, `x0..x31` and `pc` —
while the CSR feature body is empty, every CSR being absent. -/
theorem C10_exactly_33_regs :
    default_cpu.get_feature "target.xml"
        = Except.ok (into_bytes (RiscvCpu.make_target_xml RiscvCpu.make_registers))
  ∧ RiscvCpu.make_target_xml RiscvCpu.make_registers
      = TARGET_XML_HEADER ++ (feature_open RiscvRegisterType.General
          ++ (feature_body RiscvRegisterType.General RiscvCpu.make_registers
          ++ (feature_open RiscvRegisterType.CSR
          ++ (feature_body RiscvRegisterType.CSR RiscvCpu.make_registers
          ++ ("</feature>\n" ++ "</target>\n")))))
  ∧ ((RiscvCpu.make_registers.filter (fun r =>
        r.present && r.register_type == RiscvRegisterType.General)).map reg_line).length = 33
  ∧ (RiscvCpu.make_registers.filter (fun r => r.present)).map (fun r => r.name)
        = ((List.range 32).map (fun i => "x" ++ toString i)) ++ ["pc"]
  ∧ feature_body RiscvRegisterType.CSR RiscvCpu.make_registers = ""
  ∧ ((RiscvCpu.make_registers.filter (fun r =>
        r.present && r.register_type == RiscvRegisterType.General)).map reg_line).all
        (fun l => countOccur "<reg " l == 1) = true
  ∧ countOccur "<reg " TARGET_XML_HEADER = 0
  ∧ countOccur "<reg " (feature_open RiscvRegisterType.General) = 0
  ∧ countOccur "<reg " (feature_open RiscvRegisterType.CSR) = 0
  ∧ countOccur "<reg " "</feature>\n" = 0
  ∧ countOccur "<reg " "</target>\n" = 0 := by
  refine ⟨rfl, make_target_xml_eq _, by decide, by decide, by decide, by decide,
    by decide, by decide, by decide, by decide, by decide⟩
